import Mathlib

/-
Verification of the authentication-state and config-validation core of the
angular-auth-oidc-client repository (ConfigValidationService and
AuthStateService), as a shallow embedding in Lean 4.

Modelling conventions:
  * TypeScript optional values (undefined / null) are `Option`; JavaScript
    truthiness on strings is `jsTruthy` (none and the empty string are falsy),
    on optional booleans `jsTruthyB`, on optional numbers `jsTruthyN`
    (none and 0 are falsy).
  * The per-configuration key/value persistence adapter is a function from
    configId to a record of the stored values (`Store`).
  * The external TokenValidationService is an oracle record of its two
    decision functions; the external decodeURIComponent builtin is an
    abstract total function parameter.
  * Effectful queries return their boolean together with a trace of the
    observable collaborator calls (storage reads feeding the token validator,
    token-validator invocations, events fired), so short-circuit and ordering
    properties are statable.
  * The BehaviorSubject plus distinctUntilChanged change stream is modelled
    by a list of published values, each tagged with a fresh allocation
    number standing for its JavaScript object reference; the default rxjs
    comparator (strict equality, reference equality on objects) compares
    those tags.
-/

namespace AuthOidc

/-- JavaScript truthiness of an optional string: undefined, null and the
empty string are falsy. -/
def jsTruthy : Option String → Bool
  | none => false
  | some s => !(s == "")

/-- JavaScript truthiness of an optional boolean. -/
def jsTruthyB : Option Bool → Bool
  | none => false
  | some b => b

/-- JavaScript truthiness of an optional number: undefined and 0 are falsy. -/
def jsTruthyN : Option Nat → Bool
  | none => false
  | some n => !(n == 0)

/-- The fields of OpenIdConfiguration that this core reads. All are optional
in the TypeScript interface. -/
structure OpenIdConfiguration where
  configId : Option String := none
  renewTimeBeforeTokenExpiresInSeconds : Option Nat := none
  enableIdTokenExpiredValidationInRenew : Option Bool := none

deriving instance DecidableEq for OpenIdConfiguration

/-- The fields of an AuthResult (callback-context) that this core reads:
expires_in, in seconds. -/
structure AuthResult where
  expires_in : Option Nat := none

deriving instance DecidableEq for AuthResult

/-- Values the persistence adapter holds for one configuration: the keys
authzData (access token), the id token, refresh token, the stored
authentication result, and access_token_expires_at (epoch milliseconds). -/
structure StorageRecord where
  accessToken : Option String := none
  idToken : Option String := none
  refreshToken : Option String := none
  authenticationResult : Option AuthResult := none
  accessTokenExpiresAt : Option Nat := none

deriving instance DecidableEq for StorageRecord

/-- The persistence adapter: per-configuration storage, keyed by configId. -/
abbrev Store := Option String → StorageRecord

/-- A store with nothing persisted for any configuration. -/
def emptyStore : Store := fun _ => {}

/-- AuthStateService.isAuthenticated: both an access token and an id token
are present (truthy) in storage for the configuration. -/
def isAuthenticated (st : Store) (configuration : OpenIdConfiguration) : Bool :=
  jsTruthy (st configuration.configId).accessToken && jsTruthy (st configuration.configId).idToken

/-- Per-config entry of an aggregate AuthenticatedResult. -/
structure ConfigAuthenticatedResult where
  configId : Option String
  isAuthenticated : Bool

deriving instance DecidableEq for ConfigAuthenticatedResult

/-- Aggregate AuthenticatedResult. -/
structure AuthenticatedResult where
  isAuthenticated : Bool
  allConfigsAuthenticated : List ConfigAuthenticatedResult

deriving instance DecidableEq for AuthenticatedResult

/-- DEFAULT_AUTHRESULT, the initial BehaviorSubject value. -/
def DEFAULT_AUTHRESULT : AuthenticatedResult :=
  { isAuthenticated := false, allConfigsAuthenticated := [] }

/-- AuthStateService.checkAllConfigsIfTheyAreAuthenticated: map every
configuration to its storage-derived flag, aggregate with every (AND). -/
def checkAllConfigsIfTheyAreAuthenticated (st : Store)
    (configurations : List OpenIdConfiguration) : AuthenticatedResult :=
  let allConfigsAuthenticated := configurations.map (fun config =>
    ConfigAuthenticatedResult.mk config.configId (isAuthenticated st config))
  { isAuthenticated := allConfigsAuthenticated.all (fun x => x.isAuthenticated),
    allConfigsAuthenticated := allConfigsAuthenticated }

/-- AuthStateService.composeAuthenticatedResult: for exactly one
configuration the result is hard-coded authenticated (no storage read);
otherwise delegate to checkAllConfigsIfTheyAreAuthenticated. -/
def composeAuthenticatedResult (st : Store)
    (configurations : List OpenIdConfiguration) : AuthenticatedResult :=
  match configurations with
  | [config] =>
      { isAuthenticated := true,
        allConfigsAuthenticated := [{ configId := config.configId, isAuthenticated := true }] }
  | _ => checkAllConfigsIfTheyAreAuthenticated st configurations

/-- AuthStateService.composeUnAuthenticatedResult: for exactly one
configuration the result is hard-coded unauthenticated; otherwise delegate
to checkAllConfigsIfTheyAreAuthenticated. -/
def composeUnAuthenticatedResult (st : Store)
    (configurations : List OpenIdConfiguration) : AuthenticatedResult :=
  match configurations with
  | [config] =>
      { isAuthenticated := false,
        allConfigsAuthenticated := [{ configId := config.configId, isAuthenticated := false }] }
  | _ => checkAllConfigsIfTheyAreAuthenticated st configurations

/-- A configuration with configId set, used as concrete test input. -/
def cfgA : OpenIdConfiguration := { configId := some "a" }

/-- A store in which configuration cfgA has both tokens persisted. -/
def storeWithTokens : Store := fun _ =>
  { accessToken := some "at", idToken := some "it" }

/-- C1 counterexample: on a one-element configuration list over a storage
state holding no tokens, composeAuthenticatedResult answers authenticated
while checkAllConfigsIfTheyAreAuthenticated answers unauthenticated, so the
two paths are not identical for every storage state. -/
theorem composeAuthenticatedResult_single_ne_checkAll :
    composeAuthenticatedResult emptyStore [cfgA]
      ≠ checkAllConfigsIfTheyAreAuthenticated emptyStore [cfgA] := by
  decide

/-- C1 (amended): for a one-element configuration list, the single-config
shortcut of composeAuthenticatedResult agrees with
checkAllConfigsIfTheyAreAuthenticated exactly when the configuration is
authenticated in storage; the shortcut hard-codes true, the general path
re-derives the flag from storage. -/
theorem composeAuthenticatedResult_single_eq_checkAll_iff
    (st : Store) (c : OpenIdConfiguration) :
    composeAuthenticatedResult st [c] = checkAllConfigsIfTheyAreAuthenticated st [c]
      ↔ isAuthenticated st c = true := by
  cases h : isAuthenticated st c <;>
    simp [composeAuthenticatedResult, checkAllConfigsIfTheyAreAuthenticated,
      AuthenticatedResult.mk.injEq, ConfigAuthenticatedResult.mk.injEq, h]

/-- C1 witness: at a storage state where cfgA holds both tokens, the
equivalence instantiates to equality of the two paths. -/
theorem composeAuthenticatedResult_single_eq_checkAll_witness :
    composeAuthenticatedResult storeWithTokens [cfgA]
      = checkAllConfigsIfTheyAreAuthenticated storeWithTokens [cfgA] :=
  (composeAuthenticatedResult_single_eq_checkAll_iff storeWithTokens cfgA).mpr (by decide)

/-- An object reference: each publish of a freshly constructed
AuthenticatedResult object carries a fresh allocation number. -/
abbrev Ref := Nat

/-- State of AuthStateService as far as the change stream is concerned: the
next fresh reference and the sequence of values pushed into the
BehaviorSubject (the initial DEFAULT_AUTHRESULT object is reference 0). -/
structure AuthStateServiceState where
  nextRef : Ref
  published : List (Ref × AuthenticatedResult)

deriving instance DecidableEq for AuthStateServiceState

/-- The service right after construction: the BehaviorSubject holds the
single shared DEFAULT_AUTHRESULT object. -/
def initialAuthStateService : AuthStateServiceState :=
  { nextRef := 1, published := [(0, DEFAULT_AUTHRESULT)] }

/-- AuthStateService.setAuthenticatedAndFireEvent: compose the aggregate
(a freshly allocated object) and push it into the subject. -/
def setAuthenticatedAndFireEvent (st : Store)
    (configurations : List OpenIdConfiguration)
    (s : AuthStateServiceState) : AuthStateServiceState :=
  { nextRef := s.nextRef + 1,
    published := s.published ++ [(s.nextRef, composeAuthenticatedResult st configurations)] }

/-- The default rxjs distinctUntilChanged comparator, strict equality, on
objects: reference equality. -/
def refEq (a b : Ref × AuthenticatedResult) : Bool :=
  a.fst == b.fst

/-- Helper of the distinctUntilChanged model: drop each element equal (under
the comparator) to the last emitted one. -/
def dedupeFrom (comparator : α → α → Bool) (prev : α) : List α → List α
  | [] => []
  | y :: ys => if comparator prev y then dedupeFrom comparator prev ys
               else y :: dedupeFrom comparator y ys

/-- The rxjs distinctUntilChanged operator on a finished sequence: emit the
first value, then every value the comparator distinguishes from the last
emitted one. -/
def distinctUntilChangedList (comparator : α → α → Bool) : List α → List α
  | [] => []
  | x :: xs => x :: dedupeFrom comparator x xs

/-- The authenticated$ getter: the published sequence piped through
distinctUntilChanged with the default (strict-equality) comparator, as
received by a subscriber present from the start. -/
def authenticatedStream (s : AuthStateServiceState) : List (Ref × AuthenticatedResult) :=
  distinctUntilChangedList refEq s.published

/-- Helper: prefixing the last emitted element, the output of dedupeFrom is
comparator-distinct at every adjacent pair. -/
theorem chain_dedupeFrom (comparator : α → α → Bool) (prev : α) (l : List α) :
    List.Chain' (fun a b => comparator a b = false) (prev :: dedupeFrom comparator prev l) := by
  induction l generalizing prev with
  | nil => simp [dedupeFrom]
  | cons y ys ih =>
      by_cases h : comparator prev y = true
      · simpa [dedupeFrom, h] using ih prev
      · have hfalse : comparator prev y = false := by
          cases hc : comparator prev y
          · rfl
          · exact absurd hc h
        have tail := ih y
        simp only [dedupeFrom, hfalse, if_neg]
        exact List.Chain'.cons hfalse (by simpa using tail)

/-- C3 counterexample: two consecutive setAuthenticatedAndFireEvent calls
with the same one-element configuration list compose structurally identical
aggregates, yet the subscriber receives both (three notifications in all),
because the default comparator is reference equality and the two aggregates
are distinct freshly allocated objects. -/
theorem authenticatedStream_reemits_structural_duplicate :
    ((authenticatedStream (setAuthenticatedAndFireEvent storeWithTokens [cfgA]
        (setAuthenticatedAndFireEvent storeWithTokens [cfgA] initialAuthStateService))).map
      Prod.snd)
    = [DEFAULT_AUTHRESULT,
       { isAuthenticated := true,
         allConfigsAuthenticated := [{ configId := some "a", isAuthenticated := true }] },
       { isAuthenticated := true,
         allConfigsAuthenticated := [{ configId := some "a", isAuthenticated := true }] }] := by
  decide

/-- C3 (amended): the change stream suppresses duplicates only under the
default strict-equality comparator, reference equality on the published
objects: adjacent received notifications are never the same object
reference, while structurally equal but freshly allocated aggregates are
all delivered. -/
theorem authenticatedStream_adjacent_refs_distinct (s : AuthStateServiceState) :
    List.Chain' (fun a b => refEq a b = false) (authenticatedStream s) := by
  unfold authenticatedStream distinctUntilChangedList
  cases s.published with
  | nil => simp
  | cons x xs => exact chain_dedupeFrom refEq x xs

/-- C3 witness: the amended statement at the concrete two-call state. -/
theorem authenticatedStream_adjacent_refs_distinct_witness :
    List.Chain' (fun a b => refEq a b = false)
      (authenticatedStream (setAuthenticatedAndFireEvent storeWithTokens [cfgA]
        (setAuthenticatedAndFireEvent storeWithTokens [cfgA] initialAuthStateService))) :=
  authenticatedStream_adjacent_refs_distinct _

/-- C4 counterexample: calling setAuthenticatedAndFireEvent with an empty
configuration list publishes an aggregate with isAuthenticated = true and no
per-config entries (JavaScript every over an empty array is vacuously true),
contradicting the claim that an empty configuration set yields
authenticated = false; moreover the initial DEFAULT_AUTHRESULT itself has an
empty entry list (vacuously all true) with the flag false, breaking the
claimed iff on a published value. -/
theorem setAuthenticated_empty_publishes_true :
    ((setAuthenticatedAndFireEvent emptyStore [] initialAuthStateService).published.map
        Prod.snd)
      = [DEFAULT_AUTHRESULT, { isAuthenticated := true, allConfigsAuthenticated := [] }]
    ∧ DEFAULT_AUTHRESULT.allConfigsAuthenticated.all (fun x => x.isAuthenticated) = true
    ∧ DEFAULT_AUTHRESULT.isAuthenticated = false := by
  decide

/-- C4 (amended): every aggregate the two compose paths publish has its flag
equal to the AND over its per-config entries (vacuously true for an empty
entry list, so an empty configuration list publishes authenticated = true);
the initial default value is isAuthenticated = false with an empty per-config
sequence, the one published shape on which flag and vacuous AND differ. -/
theorem composed_flag_is_and_of_entries (st : Store)
    (configurations : List OpenIdConfiguration) :
    (composeAuthenticatedResult st configurations).isAuthenticated
        = (composeAuthenticatedResult st configurations).allConfigsAuthenticated.all
            (fun x => x.isAuthenticated)
    ∧ (composeUnAuthenticatedResult st configurations).isAuthenticated
        = (composeUnAuthenticatedResult st configurations).allConfigsAuthenticated.all
            (fun x => x.isAuthenticated)
    ∧ DEFAULT_AUTHRESULT
        = { isAuthenticated := false, allConfigsAuthenticated := [] } := by
  refine ⟨?_, ?_, rfl⟩ <;>
    match configurations with
    | [] => simp [composeAuthenticatedResult, composeUnAuthenticatedResult,
        checkAllConfigsIfTheyAreAuthenticated]
    | [c] => simp [composeAuthenticatedResult, composeUnAuthenticatedResult]
    | c1 :: c2 :: rest => simp [composeAuthenticatedResult, composeUnAuthenticatedResult,
        checkAllConfigsIfTheyAreAuthenticated]

/-- Event kinds the engine fires through the PublicEventsService. -/
inductive EventTypes
  | NewAuthenticationResult
  | IdTokenExpired
  | TokenExpired

deriving instance DecidableEq for EventTypes

/-- Observable collaborator calls made by the validity queries: the storage
reads that feed the token validator, the token-validator invocations, and
the events fired. -/
inductive EngineAction
  | readIdTokenFromStorage
  | readAccessTokenExpiresAt
  | validatorIdTokenExpiryCheck
  | validatorAccessTokenExpiryCheck
  | firedEvent (e : EventTypes)

deriving instance DecidableEq for EngineAction

/-- The external TokenValidationService contract surface consumed here:
hasIdTokenExpired(token, config, skewSeconds) and
validateAccessTokenNotExpired(expiresAt, config, skewSeconds). -/
structure TokenValidationOracle where
  hasIdTokenExpired : Option String → OpenIdConfiguration → Option Nat → Bool
  validateAccessTokenNotExpired : Option Nat → OpenIdConfiguration → Option Nat → Bool

/-- AuthStateService.hasIdTokenExpiredAndRenewCheckIsEnabled: if the feature
flag is falsy return false at once (no storage read, no validator call, no
event); otherwise read the stored id token, ask the validator, and fire
IdTokenExpired when it reports expiry. -/
def hasIdTokenExpiredAndRenewCheckIsEnabled (tv : TokenValidationOracle)
    (st : Store) (configuration : OpenIdConfiguration) : Bool × List EngineAction :=
  if !(jsTruthyB configuration.enableIdTokenExpiredValidationInRenew) then
    (false, [])
  else
    let tokenToCheck := (st configuration.configId).idToken
    let idTokenExpired := tv.hasIdTokenExpired tokenToCheck configuration
      configuration.renewTimeBeforeTokenExpiresInSeconds
    if idTokenExpired then
      (true, [EngineAction.readIdTokenFromStorage,
              EngineAction.validatorIdTokenExpiryCheck,
              EngineAction.firedEvent EventTypes.IdTokenExpired])
    else
      (false, [EngineAction.readIdTokenFromStorage,
               EngineAction.validatorIdTokenExpiryCheck])

/-- AuthStateService.hasAccessTokenExpiredIfExpiryExists: read the stored
access_token_expires_at, ask the validator whether the access token is still
valid, negate, and fire TokenExpired when expired. -/
def hasAccessTokenExpiredIfExpiryExists (tv : TokenValidationOracle)
    (st : Store) (configuration : OpenIdConfiguration) : Bool × List EngineAction :=
  let accessTokenExpiresIn := (st configuration.configId).accessTokenExpiresAt
  let accessTokenHasNotExpired := tv.validateAccessTokenNotExpired accessTokenExpiresIn
    configuration configuration.renewTimeBeforeTokenExpiresInSeconds
  let hasExpired := !accessTokenHasNotExpired
  if hasExpired then
    (true, [EngineAction.readAccessTokenExpiresAt,
            EngineAction.validatorAccessTokenExpiryCheck,
            EngineAction.firedEvent EventTypes.TokenExpired])
  else
    (false, [EngineAction.readAccessTokenExpiresAt,
             EngineAction.validatorAccessTokenExpiryCheck])

/-- AuthStateService.areAuthStorageTokensValid: presence check first (early
false with no further calls), then the id-token renew-expiry check (early
false), then the access-token expiry check; true only when all pass. -/
def areAuthStorageTokensValid (tv : TokenValidationOracle)
    (st : Store) (configuration : OpenIdConfiguration) : Bool × List EngineAction :=
  if !(isAuthenticated st configuration) then
    (false, [])
  else
    let idCheck := hasIdTokenExpiredAndRenewCheckIsEnabled tv st configuration
    if idCheck.fst then
      (false, idCheck.snd)
    else
      let accessCheck := hasAccessTokenExpiredIfExpiryExists tv st configuration
      if accessCheck.fst then
        (false, idCheck.snd ++ accessCheck.snd)
      else
        (true, idCheck.snd ++ accessCheck.snd)

/-- C5: areAuthStorageTokensValid returns false with an empty collaborator
trace when the configuration is not authenticated (no expiry check is
evaluated); when it is authenticated and the id-token renew check reports
expiry, the result is false with exactly that trace and the access-token
validator is never invoked; when the id-token check passes, the result is
the negated access-token expiry with the id-token trace strictly preceding
the access-token trace; and the query is true exactly when presence, the
id-token check and the access-token check all pass. -/
theorem areAuthStorageTokensValid_short_circuit_order (tv : TokenValidationOracle)
    (st : Store) (c : OpenIdConfiguration) :
    (isAuthenticated st c = false →
      areAuthStorageTokensValid tv st c = (false, []))
    ∧ (isAuthenticated st c = true →
        (hasIdTokenExpiredAndRenewCheckIsEnabled tv st c).fst = true →
        areAuthStorageTokensValid tv st c
            = (false, (hasIdTokenExpiredAndRenewCheckIsEnabled tv st c).snd)
          ∧ EngineAction.validatorAccessTokenExpiryCheck
              ∉ (areAuthStorageTokensValid tv st c).snd)
    ∧ (isAuthenticated st c = true →
        (hasIdTokenExpiredAndRenewCheckIsEnabled tv st c).fst = false →
        (areAuthStorageTokensValid tv st c).snd
            = (hasIdTokenExpiredAndRenewCheckIsEnabled tv st c).snd
                ++ (hasAccessTokenExpiredIfExpiryExists tv st c).snd
          ∧ (areAuthStorageTokensValid tv st c).fst
              = !(hasAccessTokenExpiredIfExpiryExists tv st c).fst)
    ∧ ((areAuthStorageTokensValid tv st c).fst = true ↔
        isAuthenticated st c = true
          ∧ (hasIdTokenExpiredAndRenewCheckIsEnabled tv st c).fst = false
          ∧ (hasAccessTokenExpiredIfExpiryExists tv st c).fst = false) := by
  cases hauth : isAuthenticated st c
  · simp [areAuthStorageTokensValid, hauth]
  · cases hid : (hasIdTokenExpiredAndRenewCheckIsEnabled tv st c).fst
    · cases hac : (hasAccessTokenExpiredIfExpiryExists tv st c).fst <;>
        simp [areAuthStorageTokensValid, hauth, hid, hac]
    · refine ⟨by simp, fun _ _ => ⟨by simp [areAuthStorageTokensValid, hauth, hid], ?_⟩,
        by simp [hid], by simp [areAuthStorageTokensValid, hauth, hid]⟩
      simp only [areAuthStorageTokensValid, hauth, hid, Bool.not_true, Bool.false_eq_true,
        if_false, if_true]
      unfold hasIdTokenExpiredAndRenewCheckIsEnabled
      cases hflag : jsTruthyB c.enableIdTokenExpiredValidationInRenew <;>
        cases hexp : tv.hasIdTokenExpired (st c.configId).idToken c
          c.renewTimeBeforeTokenExpiresInSeconds <;>
        simp [hflag, hexp]

/-- C5 witness: with no tokens in storage the query is false with an empty
trace. -/
theorem areAuthStorageTokensValid_short_circuit_order_witness :
    areAuthStorageTokensValid
        { hasIdTokenExpired := fun _ _ _ => true,
          validateAccessTokenNotExpired := fun _ _ _ => true }
        emptyStore cfgA = (false, []) :=
  (areAuthStorageTokensValid_short_circuit_order _ emptyStore cfgA).1 (by decide)

/-- C8: with a falsy enableIdTokenExpiredValidationInRenew flag, the
id-token renew check returns false without reading storage, invoking the
validator or firing an event, and the overall validity query does not depend
on the hasIdTokenExpired oracle at all, so an expired id token can never
make it false. -/
theorem idTokenRenewCheck_disabled_skipped
    (hid hid2 : Option String → OpenIdConfiguration → Option Nat → Bool)
    (vac : Option Nat → OpenIdConfiguration → Option Nat → Bool)
    (st : Store) (c : OpenIdConfiguration)
    (h : jsTruthyB c.enableIdTokenExpiredValidationInRenew = false) :
    hasIdTokenExpiredAndRenewCheckIsEnabled ⟨hid, vac⟩ st c = (false, [])
    ∧ areAuthStorageTokensValid ⟨hid, vac⟩ st c
        = areAuthStorageTokensValid ⟨hid2, vac⟩ st c := by
  have h1 : hasIdTokenExpiredAndRenewCheckIsEnabled ⟨hid, vac⟩ st c = (false, []) := by
    simp [hasIdTokenExpiredAndRenewCheckIsEnabled, h]
  have h2 : hasIdTokenExpiredAndRenewCheckIsEnabled ⟨hid2, vac⟩ st c = (false, []) := by
    simp [hasIdTokenExpiredAndRenewCheckIsEnabled, h]
  refine ⟨h1, ?_⟩
  simp [areAuthStorageTokensValid, h1, h2, hasAccessTokenExpiredIfExpiryExists]

/-- C8 witness: for cfgA (flag unset, hence falsy) with tokens in storage,
two oracles disagreeing on id-token expiry give the same validity result,
and the renew check is a silent false. -/
theorem idTokenRenewCheck_disabled_skipped_witness :
    hasIdTokenExpiredAndRenewCheckIsEnabled
        ⟨fun _ _ _ => true, fun _ _ _ => true⟩ storeWithTokens cfgA = (false, [])
    ∧ areAuthStorageTokensValid ⟨fun _ _ _ => true, fun _ _ _ => true⟩ storeWithTokens cfgA
        = areAuthStorageTokensValid ⟨fun _ _ _ => false, fun _ _ _ => true⟩
            storeWithTokens cfgA :=
  idTokenRenewCheck_disabled_skipped (fun _ _ _ => true) (fun _ _ _ => false)
    (fun _ _ _ => true) storeWithTokens cfgA (by decide)

/-- C10: isAuthenticated is false exactly when the stored access token or
the stored id token is absent or the empty string, so presence is decided
by JavaScript truthiness and an empty-string token behaves like an absent
one. -/
theorem isAuthenticated_false_iff_token_falsy (st : Store) (c : OpenIdConfiguration) :
    isAuthenticated st c = false ↔
      ((st c.configId).accessToken = none ∨ (st c.configId).accessToken = some ""
        ∨ (st c.configId).idToken = none ∨ (st c.configId).idToken = some "") := by
  unfold isAuthenticated
  cases hat : (st c.configId).accessToken with
  | none => simp [jsTruthy]
  | some a =>
      cases hit : (st c.configId).idToken with
      | none => simp [jsTruthy]
      | some i =>
          by_cases ha : a = "" <;> by_cases hi : i = "" <;>
            simp [jsTruthy, ha, hi]

/-- C10 witness: a stored empty-string access token next to a present id
token yields isAuthenticated = false. -/
theorem isAuthenticated_false_iff_token_falsy_witness :
    isAuthenticated (fun _ => { accessToken := some "", idToken := some "it" }) cfgA
      = false :=
  (isAuthenticated_false_iff_token_falsy
    (fun _ => { accessToken := some "", idToken := some "it" }) cfgA).mpr
    (Or.inr (Or.inl rfl))

/-- AuthStateService.decodeURIComponentSafely: percent-decode a truthy
token, otherwise return the empty string. The decodeURIComponent builtin is
an external capability, passed as a total function. -/
def decodeURIComponentSafely (decodeURIComponentImpl : String → String)
    (token : Option String) : String :=
  if jsTruthy token then decodeURIComponentImpl (token.getD "")
  else ""

/-- AuthStateService.getAccessToken: null unless authenticated, else the
stored access token percent-decoded. -/
def getAccessToken (decodeURIComponentImpl : String → String) (st : Store)
    (configuration : OpenIdConfiguration) : Option String :=
  if !(isAuthenticated st configuration) then none
  else
    let token := (st configuration.configId).accessToken
    some (decodeURIComponentSafely decodeURIComponentImpl token)

/-- AuthStateService.getIdToken: null unless authenticated, else the stored
id token percent-decoded. -/
def getIdToken (decodeURIComponentImpl : String → String) (st : Store)
    (configuration : OpenIdConfiguration) : Option String :=
  if !(isAuthenticated st configuration) then none
  else
    let token := (st configuration.configId).idToken
    some (decodeURIComponentSafely decodeURIComponentImpl token)

/-- AuthStateService.getRefreshToken: null unless authenticated, else the
stored refresh token percent-decoded. -/
def getRefreshToken (decodeURIComponentImpl : String → String) (st : Store)
    (configuration : OpenIdConfiguration) : Option String :=
  if !(isAuthenticated st configuration) then none
  else
    let token := (st configuration.configId).refreshToken
    some (decodeURIComponentSafely decodeURIComponentImpl token)

/-- AuthStateService.getAuthenticationResult: null unless authenticated,
else the stored authentication result exactly as persisted. -/
def getAuthenticationResult (st : Store)
    (configuration : OpenIdConfiguration) : Option AuthResult :=
  if !(isAuthenticated st configuration) then none
  else (st configuration.configId).authenticationResult

/-- C9: every getter answers null (none) when the configuration is not
authenticated; when it is authenticated, each token-string getter returns
the stored raw value percent-decoded if that value is truthy and the empty
string (not null) if it is falsy or absent, and getAuthenticationResult
returns the stored result unchanged. -/
theorem token_getters_sentinels (decodeURIComponentImpl : String → String)
    (st : Store) (c : OpenIdConfiguration) :
    (isAuthenticated st c = false →
      getAccessToken decodeURIComponentImpl st c = none
        ∧ getIdToken decodeURIComponentImpl st c = none
        ∧ getRefreshToken decodeURIComponentImpl st c = none
        ∧ getAuthenticationResult st c = none)
    ∧ (isAuthenticated st c = true →
        (∀ raw, (st c.configId).accessToken = some raw → raw ≠ "" →
          getAccessToken decodeURIComponentImpl st c = some (decodeURIComponentImpl raw))
        ∧ (∀ raw, (st c.configId).idToken = some raw → raw ≠ "" →
            getIdToken decodeURIComponentImpl st c = some (decodeURIComponentImpl raw))
        ∧ (∀ raw, (st c.configId).refreshToken = some raw → raw ≠ "" →
            getRefreshToken decodeURIComponentImpl st c = some (decodeURIComponentImpl raw))
        ∧ (jsTruthy (st c.configId).accessToken = false →
            getAccessToken decodeURIComponentImpl st c = some "")
        ∧ (jsTruthy (st c.configId).idToken = false →
            getIdToken decodeURIComponentImpl st c = some "")
        ∧ (jsTruthy (st c.configId).refreshToken = false →
            getRefreshToken decodeURIComponentImpl st c = some "")
        ∧ getAuthenticationResult st c = (st c.configId).authenticationResult) := by
  cases hauth : isAuthenticated st c
  · simp [getAccessToken, getIdToken, getRefreshToken, getAuthenticationResult, hauth]
  · refine ⟨by simp, fun _ => ⟨?_, ?_, ?_, ?_, ?_, ?_, ?_⟩⟩ <;>
      simp only [getAccessToken, getIdToken, getRefreshToken, getAuthenticationResult,
        hauth, Bool.not_true, Bool.false_eq_true, if_false]
    · intro raw hraw hne
      simp [decodeURIComponentSafely, hraw, jsTruthy, hne]
    · intro raw hraw hne
      simp [decodeURIComponentSafely, hraw, jsTruthy, hne]
    · intro raw hraw hne
      simp [decodeURIComponentSafely, hraw, jsTruthy, hne]
    · intro hfalsy
      simp [decodeURIComponentSafely, hfalsy]
    · intro hfalsy
      simp [decodeURIComponentSafely, hfalsy]
    · intro hfalsy
      simp [decodeURIComponentSafely, hfalsy]

/-- A percent-encoded access token next to a plain id token, with no refresh
token, for the getter witness. -/
def storeEncoded : Store := fun _ =>
  { accessToken := some "x%20y", idToken := some "it" }

/-- A decode function for the witness, decoding the one encoded token. -/
def decodeSample (s : String) : String :=
  if s == "x%20y" then "x y" else s

/-- C9 witness: on storeEncoded the access token comes back decoded, the
absent refresh token comes back as the empty string, and on an empty store
every getter is none. -/
theorem token_getters_sentinels_witness :
    getAccessToken decodeSample storeEncoded cfgA = some "x y"
    ∧ getRefreshToken decodeSample storeEncoded cfgA = some ""
    ∧ getAccessToken decodeSample emptyStore cfgA = none := by
  have hyes := (token_getters_sentinels decodeSample storeEncoded cfgA).2 (by decide)
  have hno := (token_getters_sentinels decodeSample emptyStore cfgA).1 (by decide)
  refine ⟨?_, ?_, hno.1⟩
  · have := hyes.1 "x%20y" rfl (by decide)
    simpa [decodeSample] using this
  · exact hyes.2.2.2.2.2.1 (by decide)

/-- StoragePersistenceService.write with key authzData: store the access
token for the configuration. -/
def writeAccessToken (st : Store) (cid : Option String) (v : String) : Store :=
  fun k => if k == cid then { st k with accessToken := some v } else st k

/-- AuthStateService.persistAccessTokenExpirationTime: when expires_in is
truthy, write now (truncated to a whole second by the
new Date(new Date().toUTCString()).valueOf() round-trip, which drops the
millisecond part) plus expires_in times 1000 under access_token_expires_at;
otherwise write nothing. now is the current epoch time in milliseconds. -/
def persistAccessTokenExpirationTime (now : Nat) (authResult : AuthResult)
    (st : Store) (configuration : OpenIdConfiguration) : Store :=
  if jsTruthyN authResult.expires_in then
    let accessTokenExpiryTime := now / 1000 * 1000 + (authResult.expires_in.getD 0) * 1000
    fun k => if k == configuration.configId then
        { st k with accessTokenExpiresAt := some accessTokenExpiryTime }
      else st k
  else st

/-- AuthStateService.setAuthorizationData: write the access token, persist
the derived expiry, then setAuthenticatedAndFireEvent on the one-element
list. -/
def setAuthorizationData (accessToken : String) (authResult : AuthResult)
    (configuration : OpenIdConfiguration) (now : Nat) (st : Store)
    (s : AuthStateServiceState) : Store × AuthStateServiceState :=
  let st1 := writeAccessToken st configuration.configId accessToken
  let st2 := persistAccessTokenExpirationTime now authResult st1 configuration
  (st2, setAuthenticatedAndFireEvent st2 [configuration] s)

/-- C7 counterexample: at now = 500 ms with expires_in = 3600 the value
written under access_token_expires_at is 3600000, the second-truncated now
plus 3600000, not now + 3600000 = 3600500 as the claim states. -/
theorem setAuthorizationData_truncates_now :
    ((setAuthorizationData "tok" { expires_in := some 3600 } cfgA 500 emptyStore
          initialAuthStateService).fst (some "a")).accessTokenExpiresAt
        = some 3600000
    ∧ (3600000 : Nat) ≠ 500 + 3600 * 1000 := by
  decide

/-- C7 (amended): setAuthorizationData at epoch-millisecond time T with a
truthy expires_in writes T truncated down to a whole second plus
expires_in times 1000 under access_token_expires_at (equal to
T + expires_in times 1000 exactly when T is a whole second), and always
persists the access token; with expires_in absent the expiry record is left
untouched and only the access token is written. -/
theorem setAuthorizationData_expiry_write (accessToken : String) (n now : Nat)
    (c : OpenIdConfiguration) (st : Store) (s : AuthStateServiceState)
    (hn : n ≠ 0) :
    (((setAuthorizationData accessToken { expires_in := some n } c now st s).fst
          c.configId).accessTokenExpiresAt
        = some (now / 1000 * 1000 + n * 1000))
    ∧ (now % 1000 = 0 →
        ((setAuthorizationData accessToken { expires_in := some n } c now st s).fst
            c.configId).accessTokenExpiresAt = some (now + n * 1000))
    ∧ (((setAuthorizationData accessToken { expires_in := some n } c now st s).fst
          c.configId).accessToken = some accessToken)
    ∧ (((setAuthorizationData accessToken { expires_in := none } c now st s).fst
          c.configId).accessTokenExpiresAt = (st c.configId).accessTokenExpiresAt)
    ∧ (((setAuthorizationData accessToken { expires_in := none } c now st s).fst
          c.configId).accessToken = some accessToken) := by
  refine ⟨?_, ?_, ?_, ?_, ?_⟩
  · simp [setAuthorizationData, persistAccessTokenExpirationTime, writeAccessToken,
      jsTruthyN, hn]
  · intro hmod
    simp only [setAuthorizationData, persistAccessTokenExpirationTime, writeAccessToken,
      jsTruthyN, hn, bne_iff_ne, ne_eq, not_false_eq_true, if_true, beq_self_eq_true,
      Option.some.injEq]
    simp [hn]
    omega
  · simp [setAuthorizationData, persistAccessTokenExpirationTime, writeAccessToken,
      jsTruthyN, hn]
  · simp [setAuthorizationData, persistAccessTokenExpirationTime, writeAccessToken,
      jsTruthyN]
  · simp [setAuthorizationData, persistAccessTokenExpirationTime, writeAccessToken,
      jsTruthyN]

/-- C7 witness: at the whole second now = 2000 with expires_in = 3600, the
persisted expiry is 2000 + 3600000 and the access token is stored. -/
theorem setAuthorizationData_expiry_write_witness :
    (((setAuthorizationData "tok" { expires_in := some 3600 } cfgA 2000 emptyStore
          initialAuthStateService).fst cfgA.configId).accessTokenExpiresAt
        = some (2000 + 3600 * 1000))
    ∧ (((setAuthorizationData "tok" { expires_in := some 3600 } cfgA 2000 emptyStore
          initialAuthStateService).fst cfgA.configId).accessToken = some "tok") := by
  have h := setAuthorizationData_expiry_write "tok" 3600 2000 cfgA emptyStore
    initialAuthStateService (by decide)
  exact ⟨h.2.1 (by decide), h.2.2.1⟩

/-- Severity level of a rule validation result. -/
inductive Level
  | error
  | warning

deriving instance BEq, DecidableEq for Level

/-- Boolean equality on Level agrees with propositional equality. -/
theorem level_beq_iff (a b : Level) : (a == b) = true ↔ a = b := by
  cases a <;> cases b <;> decide

/-- Result of one rule: a severity and an ordered message list. -/
structure RuleValidationResult where
  level : Level
  messages : List String

deriving instance DecidableEq for RuleValidationResult

/-- The argument a rule receives. The TypeScript rule lists are typed any,
so a call site may hand a rule one configuration or the whole configuration
list; the dynamic distinction is explicit here. -/
inductive RuleArg
  | single (c : OpenIdConfiguration)
  | many (cs : List OpenIdConfiguration)

/-- A validation rule: a pure function from its argument to a result. -/
abbrev Rule := RuleArg → RuleValidationResult

/-- ConfigValidationService.getAllMessagesOfType: keep the results of the
given severity, take their message lists, concatenate in order. -/
def getAllMessagesOfType (type : Level) (results : List RuleValidationResult) :
    List String :=
  ((results.filter (fun x => x.level == type)).map (fun result => result.messages)).foldl
    (fun acc val => acc ++ val) []

/-- ConfigValidationService.processValidationResultsAndGetErrorCount: drop
results with no messages, collect error-level messages, return how many. -/
def processValidationResultsAndGetErrorCount
    (allValidationResults : List RuleValidationResult) : Nat :=
  let allMessages := allValidationResults.filter (fun x => decide (x.messages.length > 0))
  let allErrorMessages := getAllMessagesOfType Level.error allMessages
  allErrorMessages.length

/-- ConfigValidationService.validateConfigInternal: apply every rule of the
given rule list to the passed argument and succeed iff the error count is
zero. -/
def validateConfigInternal (allRulesToUse : List Rule) (passedConfig : RuleArg) : Bool :=
  let allValidationResults := allRulesToUse.map (fun rule => rule passedConfig)
  let errorCount := processValidationResultsAndGetErrorCount allValidationResults
  errorCount == 0

/-- ConfigValidationService.validateConfigs: one internal pass per input
configuration against the multi-config rule list, handing each rule the
single element (not the whole list), succeeding iff every pass succeeds. -/
def validateConfigs (allMultipleConfigRules : List Rule)
    (passedConfigs : List OpenIdConfiguration) : Bool :=
  let result := passedConfigs.map (fun passedConfig =>
    validateConfigInternal allMultipleConfigRules (RuleArg.single passedConfig))
  result.all (fun x => x == true)

/-- ConfigValidationService.validateConfig: one internal pass of the
single-config rule list against the passed configuration. -/
def validateConfig (allRules : List Rule) (passedConfig : OpenIdConfiguration) : Bool :=
  validateConfigInternal allRules (RuleArg.single passedConfig)

/-- Modelled from the spec: validateAll runs the cross-configuration rule
set once per input element by passing the complete set to each multi-config
rule, and succeeds iff every element pass is error-free. -/
def validateAllSpec (rules : List Rule) (passedConfigs : List OpenIdConfiguration) : Bool :=
  (passedConfigs.map (fun _ =>
    validateConfigInternal rules (RuleArg.many passedConfigs))).all (fun x => x == true)

/-- Modelled from the spec: the duplicate-configId cross-config rule of the
multi-config rule set (the rules/index module is not under src). On the
whole list it reports an error-level message when two configurations share
a configId; handed a single configuration (as the code under src does)
there is at most one configId in sight, so no duplicate is reported. -/
def ensureNoDuplicatedConfigsRule : Rule := fun arg =>
  match arg with
  | RuleArg.many cs =>
      if (cs.map (fun c => c.configId)).Nodup then
        { level := Level.error, messages := [] }
      else
        { level := Level.error, messages := ["You added multiple configs with the same configId"] }
  | RuleArg.single _ => { level := Level.error, messages := [] }

/-- C2: on two configurations sharing configId a, the code path of
validateConfigs hands the duplicate-configId rule one configuration at a
time and reports success, while the spec-mandated pass (each rule sees the
complete list) reports failure: the code invokes rule(passedConfig) where
the spec requires rule(passedConfigs). -/
theorem validateConfigs_passes_single_not_list :
    validateConfigs [ensureNoDuplicatedConfigsRule] [cfgA, cfgA] = true
    ∧ validateAllSpec [ensureNoDuplicatedConfigsRule] [cfgA, cfgA] = false := by
  decide

/-- Helper: folding list concatenation from an accumulator is the
accumulator followed by the join. -/
theorem foldl_append_eq_flatten (L : List (List String)) (acc : List String) :
    L.foldl (fun acc val => acc ++ val) acc = acc ++ L.flatten := by
  induction L generalizing acc with
  | nil => simp
  | cons h t ih => simp [List.foldl_cons, ih]

/-- Helper: the error count of a result list is zero exactly when every
error-level result in it carries no messages. -/
theorem errorCount_zero_iff (results : List RuleValidationResult) :
    processValidationResultsAndGetErrorCount results = 0 ↔
      ∀ r ∈ results, r.level = Level.error → r.messages = [] := by
  unfold processValidationResultsAndGetErrorCount getAllMessagesOfType
  simp only [foldl_append_eq_flatten, List.nil_append]
  induction results with
  | nil => simp
  | cons x xs ih =>
      by_cases hp : x.messages.length > 0 <;>
        by_cases hq : x.level = Level.error <;>
          simp only [List.filter_cons, decide_eq_true_eq, hp, hq, if_true, if_false,
            decide_True, decide_False, List.map_cons, List.flatten_cons,
            List.length_append, List.mem_cons, forall_eq_or_imp,
            Nat.add_eq_zero, List.length_eq_zero] at ih ⊢ <;>
          simp_all [level_beq_iff]

/-- C6: validateConfig succeeds exactly when no rule produced an error-level
result with a nonempty message list; warning-level messages never affect
the outcome, and any single error-level message forces failure. -/
theorem validateConfig_true_iff_no_error_messages (rules : List Rule)
    (c : OpenIdConfiguration) :
    validateConfig rules c = true ↔
      ∀ rule ∈ rules, (rule (RuleArg.single c)).level = Level.error →
        (rule (RuleArg.single c)).messages = [] := by
  unfold validateConfig validateConfigInternal
  simp only [beq_iff_eq]
  rw [errorCount_zero_iff]
  constructor
  · intro h rule hrule hlvl
    exact h (rule (RuleArg.single c)) (List.mem_map_of_mem _ hrule) hlvl
  · intro h r hr hlvl
    rcases List.mem_map.mp hr with ⟨rule, hrule, hEq⟩
    subst hEq
    exact h rule hrule hlvl

/-- A rule producing only a warning message. -/
def warnOnlyRule : Rule := fun _ => { level := Level.warning, messages := ["w"] }

/-- A rule producing one error message. -/
def oneErrorRule : Rule := fun _ => { level := Level.error, messages := ["e"] }

/-- C6 witness: a warnings-only configuration validates as true and adding
one error-level message flips the result to false. -/
theorem validateConfig_true_iff_no_error_messages_witness :
    validateConfig [warnOnlyRule] cfgA = true
    ∧ validateConfig [warnOnlyRule, oneErrorRule] cfgA = false := by
  constructor
  · refine (validateConfig_true_iff_no_error_messages [warnOnlyRule] cfgA).mpr ?_
    intro rule hrule hlvl
    rcases List.mem_singleton.mp hrule with rfl
    simp [warnOnlyRule] at hlvl
  · cases hval : validateConfig [warnOnlyRule, oneErrorRule] cfgA
    · rfl
    · have hc := (validateConfig_true_iff_no_error_messages
          [warnOnlyRule, oneErrorRule] cfgA).mp hval oneErrorRule
          (List.mem_cons_of_mem _ (List.mem_singleton_self _)) rfl
      simp [oneErrorRule] at hc

end AuthOidc
